import Mathlib

/-
  Verification of the session/streaming tool-call orchestrator of the
  Figma-agent backend.

  The definitions below are a shallow embedding of the TypeScript sources:
  - packages/backend/src/services/session.ts        (session store)
  - packages/backend/src/services/websocketHandlers.ts (orchestrator handlers)
  - packages/backend/src/services/websocket.ts      (connection gateway, heartbeat)
  - packages/backend/src/config/ai.ts               (system instruction injection)
  - the OpenAI streaming client (generateChatResponseStream)

  The in-memory `Map<string, SessionData>` is embedded as an association list
  with JS-Map semantics (set replaces in place, insertion order preserved).
  `Date.now()` is passed explicitly as a `now : Nat` parameter; the several
  reads of the clock inside one handler happen within the same tick and are
  modelled by a single value.  `randomUUID()` is modelled by an explicit
  `freshId` parameter.
-/

/-- Roles of a chat message (`user` / `assistant` / `developer`). -/
inductive Role
  | user
  | assistant
  | developer
deriving DecidableEq

/-- One entry of `BackendChatMessage.tool_calls`:
`(id := ..., type := "function", function := (name, arguments))`. -/
structure ToolCall where
  id : String
  name : String
  arguments : String
deriving DecidableEq

/-- A history entry (`HistoryMessage` in types.ts): either a role/content chat
message whose `tool_calls` field may be absent (`none`) or present, or a
`function_call_output` record.  The type guards `isBackendChatMessage` and
`isFunctionCallOutputMessage` of the source distinguish the two constructors. -/
inductive HistoryMessage
  | chat (role : Role) (content : String) (tool_calls : Option (List ToolCall))
  | functionCallOutput (call_id : String) (output : String)
deriving DecidableEq

/-- `SessionData` of session.ts. -/
structure SessionData where
  previousResponseId : Option String
  chatHistory : List HistoryMessage
  lastAccessed : Nat
deriving DecidableEq

/-- `SESSION_TTL = 24 * 60 * 60 * 1000` milliseconds. -/
def SESSION_TTL : Nat := 24 * 60 * 60 * 1000

/-- The in-memory `sessions : Map<string, SessionData>`. -/
abbrev Store := List (String × SessionData)

/-- `sessions.get(id)`. -/
def lookupS : Store → String → Option SessionData
  | [], _ => none
  | (k, v) :: rest, id => if k = id then some v else lookupS rest id

/-- `sessions.set(id, v)`: replaces the entry in place if the key exists,
otherwise appends a new entry (JS Map insertion-order semantics). -/
def setS : Store → String → SessionData → Store
  | [], id, v => [(id, v)]
  | (k, w) :: rest, id, v =>
      if k = id then (k, v) :: rest else (k, w) :: setS rest id v

/-- `sessions.delete(id)`. -/
def deleteS : Store → String → Store
  | [], _ => []
  | (k, w) :: rest, id =>
      if k = id then deleteS rest id else (k, w) :: deleteS rest id

/-- Result of `getOrCreateSession`: `{ sessionId, sessionData, isNewSession }`
together with the store after the call. -/
structure GetOrCreateResult where
  sessionId : String
  sessionData : SessionData
  isNewSession : Bool
  store : Store
deriving DecidableEq

/-- `getOrCreateSession(requestedSessionId?)` of session.ts: a present, found
and unexpired id is refreshed and returned with `isNewSession = false`; an
expired entry is deleted and a fresh session is created; an absent or unknown
id creates a fresh session under a newly generated id (`freshId`). -/
def getOrCreateSession (store : Store) (now : Nat) (freshId : String)
    (requestedSessionId : Option String) : GetOrCreateResult :=
  match requestedSessionId with
  | none =>
      let sessionData : SessionData := ⟨none, [], now⟩
      ⟨freshId, sessionData, true, setS store freshId sessionData⟩
  | some sessionId =>
      match lookupS store sessionId with
      | none =>
          let sessionData : SessionData := ⟨none, [], now⟩
          ⟨freshId, sessionData, true, setS store freshId sessionData⟩
      | some sessionData =>
          if now - sessionData.lastAccessed > SESSION_TTL then
            let store1 := deleteS store sessionId
            let newData : SessionData := ⟨none, [], now⟩
            ⟨freshId, newData, true, setS store1 freshId newData⟩
          else
            let refreshed := { sessionData with lastAccessed := now }
            ⟨sessionId, refreshed, false, setS store sessionId refreshed⟩

/-- `isValidSession(sessionId)`: existence plus TTL check, without refreshing
`lastAccessed`. -/
def isValidSession (store : Store) (now : Nat) (sessionId : String) : Bool :=
  match lookupS store sessionId with
  | none => false
  | some session =>
      if now - session.lastAccessed > SESSION_TTL then false else true

/-- `addMessageToHistory(sessionId, messageToAdd)`: pushes the message and
refreshes `lastAccessed`; a no-op (with a logged warning) on an unknown id. -/
def addMessageToHistory (store : Store) (now : Nat) (sessionId : String)
    (messageToAdd : HistoryMessage) : Store :=
  match lookupS store sessionId with
  | some sessionData =>
      setS store sessionId
        { sessionData with
          chatHistory := sessionData.chatHistory ++ [messageToAdd],
          lastAccessed := now }
  | none => store

/-- `updateSessionData(sessionId, newPreviousResponseId, messageToAdd)`:
sets the continuation token, pushes the message and refreshes `lastAccessed`;
a no-op (with a logged warning) on an unknown id. -/
def updateSessionData (store : Store) (now : Nat) (sessionId : String)
    (newPreviousResponseId : String) (messageToAdd : HistoryMessage) : Store :=
  match lookupS store sessionId with
  | some sessionData =>
      setS store sessionId
        ⟨some newPreviousResponseId,
         sessionData.chatHistory ++ [messageToAdd], now⟩
  | none => store

-- Store lemmas

theorem lookupS_setS_self (store : Store) (k : String) (v : SessionData) :
    lookupS (setS store k v) k = some v := by
  induction store with
  | nil => simp [setS, lookupS]
  | cons hd tl ih =>
      obtain ⟨k0, v0⟩ := hd
      by_cases h : k0 = k
      · simp [setS, h, lookupS]
      · simp [setS, h, lookupS, ih]

theorem lookupS_setS_ne (store : Store) (k : String) (v : SessionData)
    (k2 : String) (h : k2 ≠ k) :
    lookupS (setS store k v) k2 = lookupS store k2 := by
  induction store with
  | nil => simp [setS, lookupS, (Ne.symm h : k ≠ k2)]
  | cons hd tl ih =>
      obtain ⟨k0, v0⟩ := hd
      by_cases hk : k0 = k
      · subst hk
        simp [setS, lookupS, (by simpa using h.symm : ¬ k0 = k2)]
      · simp [setS, hk, lookupS]
        by_cases hk2 : k0 = k2
        · simp [hk2]
        · simp [hk2, ih]

theorem lookupS_deleteS_self (store : Store) (k : String) :
    lookupS (deleteS store k) k = none := by
  induction store with
  | nil => simp [deleteS, lookupS]
  | cons hd tl ih =>
      obtain ⟨k0, v0⟩ := hd
      by_cases h : k0 = k
      · simp [deleteS, h, ih]
      · simp [deleteS, h, lookupS, ih]

theorem lookupS_setS_isSome (store : Store) (k : String) (v : SessionData)
    (hk : (lookupS store k).isSome = true) (k2 : String) :
    (lookupS (setS store k v) k2).isSome = (lookupS store k2).isSome := by
  by_cases h : k2 = k
  · subst h
    simp [lookupS_setS_self, hk]
  · simp [lookupS_setS_ne store k v k2 h]

-- Claim C5

/-- C5: calling `getOrCreateSession` twice on a live, unexpired session id
(each call within the TTL of the previous access) returns the requested id
both times with `isNewSession = false`, the same conversation contents
(`previousResponseId` and `chatHistory`; `lastAccessed` is refreshed by
design), and creates no new store entry. -/
theorem getOrCreate_twice_same_session (store : Store) (id fresh1 fresh2 : String)
    (sd : SessionData) (now1 now2 : Nat)
    (hfound : lookupS store id = some sd)
    (h1 : ¬ now1 - sd.lastAccessed > SESSION_TTL)
    (h2 : ¬ now2 - now1 > SESSION_TTL) :
    (getOrCreateSession store now1 fresh1 (some id)).sessionId = id ∧
    (getOrCreateSession store now1 fresh1 (some id)).isNewSession = false ∧
    (getOrCreateSession store now1 fresh1 (some id)).sessionData.previousResponseId
      = sd.previousResponseId ∧
    (getOrCreateSession store now1 fresh1 (some id)).sessionData.chatHistory
      = sd.chatHistory ∧
    (getOrCreateSession (getOrCreateSession store now1 fresh1 (some id)).store
        now2 fresh2 (some id)).sessionId = id ∧
    (getOrCreateSession (getOrCreateSession store now1 fresh1 (some id)).store
        now2 fresh2 (some id)).isNewSession = false ∧
    (getOrCreateSession (getOrCreateSession store now1 fresh1 (some id)).store
        now2 fresh2 (some id)).sessionData.previousResponseId
      = sd.previousResponseId ∧
    (getOrCreateSession (getOrCreateSession store now1 fresh1 (some id)).store
        now2 fresh2 (some id)).sessionData.chatHistory = sd.chatHistory ∧
    ∀ k, (lookupS (getOrCreateSession (getOrCreateSession store now1 fresh1
        (some id)).store now2 fresh2 (some id)).store k).isSome
      = (lookupS store k).isSome := by
  have hr1 : getOrCreateSession store now1 fresh1 (some id)
      = ⟨id, { sd with lastAccessed := now1 }, false,
         setS store id { sd with lastAccessed := now1 }⟩ := by
    simp [getOrCreateSession, hfound, h1]
  have hlook1 : lookupS (setS store id { sd with lastAccessed := now1 }) id
      = some { sd with lastAccessed := now1 } := lookupS_setS_self _ _ _
  have hr2 : getOrCreateSession (setS store id { sd with lastAccessed := now1 })
      now2 fresh2 (some id)
      = ⟨id, { sd with lastAccessed := now2 }, false,
         setS (setS store id { sd with lastAccessed := now1 }) id
           { sd with lastAccessed := now2 }⟩ := by
    simp [getOrCreateSession, hlook1, h2]
  have hsome : (lookupS store id).isSome = true := by simp [hfound]
  have hsome1 : (lookupS (setS store id { sd with lastAccessed := now1 }) id).isSome
      = true := by simp [hlook1]
  refine ⟨by simp [hr1], by simp [hr1], by simp [hr1], by simp [hr1],
          by simp [hr1, hr2], by simp [hr1, hr2], by simp [hr1, hr2],
          by simp [hr1, hr2], ?_⟩
  intro k
  rw [hr1]
  simp only [hr2]
  rw [lookupS_setS_isSome _ _ _ hsome1 k, lookupS_setS_isSome _ _ _ hsome k]

/-- Witness for C5 at a concrete store and times. -/
theorem getOrCreate_twice_same_session_witness :
    (getOrCreateSession [("s1", ⟨some "r0", [HistoryMessage.chat Role.user "hi" none], 100⟩)]
        200 "f1" (some "s1")).sessionId = "s1" ∧
    (lookupS (getOrCreateSession
        (getOrCreateSession [("s1", ⟨some "r0", [HistoryMessage.chat Role.user "hi" none], 100⟩)]
          200 "f1" (some "s1")).store 300 "f2" (some "s1")).store "other").isSome
      = (lookupS [("s1", (⟨some "r0", [HistoryMessage.chat Role.user "hi" none], 100⟩ : SessionData))] "other").isSome := by
  have h := getOrCreate_twice_same_session
    [("s1", ⟨some "r0", [HistoryMessage.chat Role.user "hi" none], 100⟩)]
    "s1" "f1" "f2" ⟨some "r0", [HistoryMessage.chat Role.user "hi" none], 100⟩
    200 300 (by decide) (by decide) (by decide)
  exact ⟨h.1, h.2.2.2.2.2.2.2.2 "other"⟩

-- Claim C6

/-- C6: a session whose `lastAccessed` is older than the 24h TTL is reported
invalid by `isValidSession`, and `getOrCreateSession` on its id deletes the
expired entry and returns a freshly generated id (distinct from the requested
one, given uniqueness of generated ids) with empty history, a null
continuation token and `isNewSession = true`. -/
theorem expired_session_recreated (store : Store) (id fresh : String)
    (sd : SessionData) (now : Nat)
    (hfound : lookupS store id = some sd)
    (hexp : now - sd.lastAccessed > SESSION_TTL)
    (hfresh : fresh ≠ id) :
    isValidSession store now id = false ∧
    (getOrCreateSession store now fresh (some id)).sessionId = fresh ∧
    (getOrCreateSession store now fresh (some id)).sessionId ≠ id ∧
    (getOrCreateSession store now fresh (some id)).isNewSession = true ∧
    (getOrCreateSession store now fresh (some id)).sessionData
      = ⟨none, [], now⟩ ∧
    lookupS (getOrCreateSession store now fresh (some id)).store id = none := by
  have hval : isValidSession store now id = false := by
    simp [isValidSession, hfound, hexp]
  have hr : getOrCreateSession store now fresh (some id)
      = ⟨fresh, ⟨none, [], now⟩, true,
         setS (deleteS store id) fresh ⟨none, [], now⟩⟩ := by
    simp [getOrCreateSession, hfound, hexp]
  refine ⟨hval, by simp [hr], by simp [hr, hfresh], by simp [hr], by simp [hr], ?_⟩
  rw [hr]
  simp only []
  rw [lookupS_setS_ne _ _ _ _ (Ne.symm hfresh)]
  exact lookupS_deleteS_self store id

/-- Witness for C6 at a concrete expired session. -/
theorem expired_session_recreated_witness :
    isValidSession [("s1", ⟨some "r0", [], 0⟩)] (SESSION_TTL + 1) "s1" = false ∧
    (getOrCreateSession [("s1", ⟨some "r0", [], 0⟩)] (SESSION_TTL + 1) "f9"
        (some "s1")).sessionId = "f9" ∧
    lookupS (getOrCreateSession [("s1", ⟨some "r0", [], 0⟩)] (SESSION_TTL + 1) "f9"
        (some "s1")).store "s1" = none := by
  have h := expired_session_recreated [("s1", ⟨some "r0", [], 0⟩)] "s1" "f9"
    ⟨some "r0", [], 0⟩ (SESSION_TTL + 1) (by decide) (by decide) (by decide)
  exact ⟨h.1, h.2.1, h.2.2.2.2.2⟩

-- Orchestrator handlers (websocketHandlers.ts) and system instruction (config/ai.ts)

/-- `isBackendChatMessage`: the type guard checking for `role` and `content`
fields; true exactly for the `chat` constructor. -/
def isBackendChatMessage : HistoryMessage → Bool
  | .chat _ _ _ => true
  | .functionCallOutput _ _ => false

/-- The filter predicate used to find the pending tool-call request:
`msg.role === "assistant" && !!msg.tool_calls`.  A present empty array is
truthy in JS, so `some []` also passes. -/
def isAssistantWithToolCalls : HistoryMessage → Bool
  | .chat .assistant _ (some _) => true
  | _ => false

/-- Whether a history entry is an assistant message carrying a tool call with
the given `call_id` (`tool_calls?.some(tc => tc.id === call_id)`). -/
def isAssistantWithMatchingCall : HistoryMessage → String → Bool
  | .chat .assistant _ (some tool_calls), call_id =>
      tool_calls.any (fun tc => tc.id = call_id)
  | _, _ => false

/-- `SYSTEM_INSTRUCTION` of config/ai.ts: a high-priority `developer`-role
instruction turn (the prompt text is inert for all properties proved here). -/
def SYSTEM_INSTRUCTION : HistoryMessage :=
  .chat .developer "你是一个专为设计师打造的 Figma 插件 AI 助手。你的主要职责是为用户提供专业的设计建议和技术支持，帮助他们解决在使用 Figma 和 Figjam 时遇到的各种问题。" none

/-- `messages.length > 0 && messages[0]?.role === "developer"`: whether a
developer-role instruction is already the first element. -/
def startsWithDeveloperInstruction : List HistoryMessage → Bool
  | .chat .developer _ _ :: _ => true
  | _ => false

/-- `ensureSystemInstruction(messages)`: prepends `SYSTEM_INSTRUCTION` unless
the first element already has the `developer` role. -/
def ensureSystemInstruction (messages : List HistoryMessage) : List HistoryMessage :=
  if startsWithDeveloperInstruction messages then messages
  else SYSTEM_INSTRUCTION :: messages

/-- The slice of `handleChatMessage` up to the `generateChatResponseStream`
call: reads the session (refreshing it), captures `previousResponseId`,
appends the new `UserMessage` to the history, and selects the outbound API
input — the full (mutated) stored history through `ensureSystemInstruction`
when the continuation token is null, or just the new user message otherwise.
Returns the store after the append together with `messagesForAPI`. -/
def handleChatMessagePrepare (store : Store) (now : Nat) (freshId : String)
    (sessionId : String) (userMessageContent : String) :
    Store × List HistoryMessage :=
  let r := getOrCreateSession store now freshId (some sessionId)
  let previousResponseId := r.sessionData.previousResponseId
  let newUserMessage : HistoryMessage := .chat .user userMessageContent none
  let store1 := addMessageToHistory r.store now sessionId newUserMessage
  -- the handler then reads `sessionData.chatHistory`, the array that
  -- `addMessageToHistory` just mutated in place; in this immutable model that
  -- is the history now stored under `sessionId` (the captured object is
  -- unmodified when the id is unknown and the append was a no-op)
  let currentHistory :=
    match lookupS store1 sessionId with
    | some sd => sd.chatHistory
    | none => r.sessionData.chatHistory
  let messagesForAPI :=
    match previousResponseId with
    | none => ensureSystemInstruction currentHistory
    | some _ => [newUserMessage]
  (store1, messagesForAPI)

/-- JS `String.prototype.trim()`: strips leading and trailing whitespace.
Embedded over the character list so that concrete inputs evaluate inside the
kernel (core `String.trim` does not reduce there). -/
def isJsWhitespace (c : Char) : Bool :=
  c = ' ' || c = '\t' || c = '\n' || c = '\r' || c = '\x0b' || c = '\x0c'

/-- See `isJsWhitespace`. -/
def jsTrim (s : String) : String :=
  String.mk (((s.data.dropWhile isJsWhitespace).reverse.dropWhile
    isJsWhitespace).reverse)

/-- The `onComplete` callback of `handleChatMessage`: with non-empty,
non-whitespace final text a fresh assistant message is recorded through
`updateSessionData`; otherwise the last assistant message carrying
`tool_calls` (if any) is passed to `updateSessionData` again, and failing
that a minimal empty assistant message is recorded. -/
def chatOnComplete (store : Store) (now : Nat) (sessionId : String)
    (finalText : Option String) (responseId : String) : Store :=
  match lookupS store sessionId with
  | none => store   -- the captured session object is gone from the store;
                    -- updateSessionData would warn and leave the store as is
  | some sessionData =>
      let assistantRequestMessage :=
        ((sessionData.chatHistory.filter isBackendChatMessage).filter
          isAssistantWithToolCalls).getLast?
      -- `if (finalText && finalText.trim().length > 0)`
      let hasText :=
        match finalText with
        | some t => decide (0 < (jsTrim t).length)
        | none => false
      if hasText then
        updateSessionData store now sessionId responseId
          (.chat .assistant (finalText.getD "") none)
      else
        match assistantRequestMessage with
        | some m => updateSessionData store now sessionId responseId m
        | none =>
            updateSessionData store now sessionId responseId
              (.chat .assistant "" none)

/-- Outcome of `handleFunctionResult`: either the structured
`INTERNAL_ERROR` reply (no generation call), or a re-invocation of the
streaming generation client with the given incremental input and stored
continuation token. -/
inductive FnResultOutcome
  | internalError
  | aiCall (messagesForAPI : List HistoryMessage) (previousResponseId : String)
deriving DecidableEq

/-- The check applied to `history[history.length - 1]`:
`isFunctionCallOutputMessage(lastMessage) && lastMessage.call_id === call_id`. -/
def apiFunctionResultFor (lastMessage : HistoryMessage) (call_id : String) :
    Option HistoryMessage :=
  match lastMessage with
  | .functionCallOutput cid out =>
      if cid = call_id then some (.functionCallOutput cid out) else none
  | _ => none

/-- The check applied to `history[history.length - 2]`: an assistant chat
message whose `tool_calls` contains an entry with the submitted `call_id`. -/
def apiAssistantFor (secondLastMessage : HistoryMessage) (call_id : String) :
    Option HistoryMessage :=
  match secondLastMessage with
  | .chat .assistant content (some tool_calls) =>
      if tool_calls.any (fun tc => tc.id = call_id) then
        some (.chat .assistant content (some tool_calls))
      else none
  | _ => none

/-- `handleFunctionResult(client, sessionId, request)`: appends the
`function_call_output` to the history first, then reads the session; a null
continuation token or a last-two-history-entries shape that does not match
the submitted `call_id` yields the `INTERNAL_ERROR` reply, otherwise the
generation client is re-invoked with `[assistant tool-call request,
function result]` and the stored `previousResponseId`.  The source reads
`history[history.length - 1]` and `history[history.length - 2]` under a
`history.length >= 2` guard, i.e. the first two entries of the reversed
history. -/
def handleFunctionResult (store : Store) (now : Nat) (freshId : String)
    (sessionId call_id output : String) : Store × FnResultOutcome :=
  let functionResultMessage : HistoryMessage := .functionCallOutput call_id output
  let store1 := addMessageToHistory store now sessionId functionResultMessage
  let r := getOrCreateSession store1 now freshId (some sessionId)
  match r.sessionData.previousResponseId with
  | none => (r.store, .internalError)
  | some previousResponseId =>
      match r.sessionData.chatHistory.reverse with
      | lastMessage :: secondLastMessage :: _ =>
          match apiAssistantFor secondLastMessage call_id,
                apiFunctionResultFor lastMessage call_id with
          | some assistantMessageForApiInput, some functionResultForApi =>
              (r.store,
               .aiCall [assistantMessageForApiInput, functionResultForApi]
                 previousResponseId)
          | _, _ => (r.store, .internalError)
      | _ => (r.store, .internalError)

-- Helper lemmas for the handler proofs

theorem getLast?_of_reverse_cons (l : List HistoryMessage) (y : HistoryMessage)
    (ys : List HistoryMessage) (h : l.reverse = y :: ys) :
    l.getLast? = some y := by
  have hl : l = ys.reverse ++ [y] := by
    have := congrArg List.reverse h
    simpa [List.reverse_reverse] using this
  subst hl
  simp

theorem apiAssistantFor_eq_none (m : HistoryMessage) (call_id : String)
    (h : isAssistantWithMatchingCall m call_id = false) :
    apiAssistantFor m call_id = none := by
  cases m with
  | functionCallOutput c o => simp [apiAssistantFor]
  | chat role content tool_calls =>
      cases role with
      | assistant =>
          cases tool_calls with
          | none => simp [apiAssistantFor]
          | some tcs =>
              simp only [isAssistantWithMatchingCall] at h
              simp [apiAssistantFor, h]
      | user => simp [apiAssistantFor]
      | developer => simp [apiAssistantFor]

theorem handleFunctionResult_found (store : Store) (now : Nat)
    (freshId sessionId call_id output : String) (sd : SessionData)
    (hfound : lookupS store sessionId = some sd) :
    handleFunctionResult store now freshId sessionId call_id output =
      (let sd1 : SessionData :=
        ⟨sd.previousResponseId,
         sd.chatHistory ++ [.functionCallOutput call_id output], now⟩
       let store2 := setS (setS store sessionId sd1) sessionId sd1
       match sd.previousResponseId with
       | none => (store2, .internalError)
       | some previousResponseId =>
           match sd1.chatHistory.reverse with
           | lastMessage :: secondLastMessage :: _ =>
               match apiAssistantFor secondLastMessage call_id,
                     apiFunctionResultFor lastMessage call_id with
               | some am, some fr =>
                   (store2, .aiCall [am, fr] previousResponseId)
               | _, _ => (store2, .internalError)
           | _ => (store2, .internalError)) := by
  have h1 : addMessageToHistory store now sessionId
      (.functionCallOutput call_id output)
      = setS store sessionId
          ⟨sd.previousResponseId,
           sd.chatHistory ++ [.functionCallOutput call_id output], now⟩ := by
    simp [addMessageToHistory, hfound]
  have h2 : lookupS (setS store sessionId
      (⟨sd.previousResponseId,
        sd.chatHistory ++ [.functionCallOutput call_id output], now⟩ : SessionData))
      sessionId
      = some ⟨sd.previousResponseId,
          sd.chatHistory ++ [.functionCallOutput call_id output], now⟩ :=
    lookupS_setS_self _ _ _
  simp only [handleFunctionResult, h1, getOrCreateSession, h2, Nat.sub_self]
  simp [SESSION_TTL]

-- Claim C10

/-- C10: a `function_result` for an existing session whose continuation token
(`previousResponseId`) is null yields the `INTERNAL_ERROR` structured reply
and no generation call — but only after the `function_call_output` has
already been appended, so the stored history ends with the orphaned entry. -/
theorem fnresult_missing_token_internal_error (store : Store) (now : Nat)
    (freshId sessionId call_id output : String) (sd : SessionData)
    (hfound : lookupS store sessionId = some sd)
    (hprev : sd.previousResponseId = none) :
    (handleFunctionResult store now freshId sessionId call_id output).2
      = .internalError ∧
    lookupS (handleFunctionResult store now freshId sessionId call_id output).1
        sessionId
      = some ⟨none,
          sd.chatHistory ++ [.functionCallOutput call_id output], now⟩ := by
  rw [handleFunctionResult_found store now freshId sessionId call_id output sd hfound]
  simp only [hprev]
  exact ⟨by trivial, by simpa [hprev] using lookupS_setS_self _ _ _⟩

/-- Witness for C10: a concrete valid session with a null continuation token. -/
theorem fnresult_missing_token_internal_error_witness :
    (handleFunctionResult
        [("s1", ⟨none, [HistoryMessage.chat Role.user "hi" none], 0⟩)]
        5 "f1" "s1" "c1" "ok").2 = .internalError ∧
    lookupS (handleFunctionResult
        [("s1", ⟨none, [HistoryMessage.chat Role.user "hi" none], 0⟩)]
        5 "f1" "s1" "c1" "ok").1 "s1"
      = some ⟨none, [HistoryMessage.chat Role.user "hi" none,
                     HistoryMessage.functionCallOutput "c1" "ok"], 5⟩ :=
  fnresult_missing_token_internal_error
    [("s1", ⟨none, [HistoryMessage.chat Role.user "hi" none], 0⟩)]
    5 "f1" "s1" "c1" "ok" ⟨none, [HistoryMessage.chat Role.user "hi" none], 0⟩
    (by decide) (by decide)

-- Claim C1

/-- C1 (counterexample to the claim as stated): submitting a
`function_result` whose `call_id` does not match the pending tool-call
request yields the structured error, but the history is NOT left unchanged —
the orphaned `function_call_output` has been appended before validation. -/
theorem fnresult_desync_mutates_history_concrete :
    (handleFunctionResult
        [("s1", ⟨some "resp1",
           [HistoryMessage.chat Role.user "hi" none,
            HistoryMessage.chat Role.assistant ""
              (some [⟨"c1", "detectAllNodes", ""⟩])], 0⟩)]
        5 "f1" "s1" "wrong-id" "ok").2 = FnResultOutcome.internalError ∧
    lookupS (handleFunctionResult
        [("s1", ⟨some "resp1",
           [HistoryMessage.chat Role.user "hi" none,
            HistoryMessage.chat Role.assistant ""
              (some [⟨"c1", "detectAllNodes", ""⟩])], 0⟩)]
        5 "f1" "s1" "wrong-id" "ok").1 "s1"
      = some ⟨some "resp1",
          [HistoryMessage.chat Role.user "hi" none,
           HistoryMessage.chat Role.assistant ""
             (some [⟨"c1", "detectAllNodes", ""⟩]),
           HistoryMessage.functionCallOutput "wrong-id" "ok"], 5⟩ ∧
    ([HistoryMessage.chat Role.user "hi" none,
      HistoryMessage.chat Role.assistant ""
        (some [⟨"c1", "detectAllNodes", ""⟩]),
      HistoryMessage.functionCallOutput "wrong-id" "ok"]
     ≠ [HistoryMessage.chat Role.user "hi" none,
        HistoryMessage.chat Role.assistant ""
          (some [⟨"c1", "detectAllNodes", ""⟩])]) := by
  refine ⟨by decide, by decide, by decide⟩

/-- C1 (amended): on a `function_result` whose `call_id` matches no pending
tool-call request in the immediately preceding assistant message, the handler
replies with a structured error (`INTERNAL_ERROR`) and makes no generation
call, but the session history is mutated by exactly the appended orphaned
`function_call_output` entry. -/
theorem fnresult_desync_error_and_orphan (store : Store) (now : Nat)
    (freshId sessionId call_id output : String) (sd : SessionData) (p : String)
    (hfound : lookupS store sessionId = some sd)
    (hprev : sd.previousResponseId = some p)
    (hnomatch : ∀ m, sd.chatHistory.getLast? = some m →
        isAssistantWithMatchingCall m call_id = false) :
    (handleFunctionResult store now freshId sessionId call_id output).2
      = .internalError ∧
    lookupS (handleFunctionResult store now freshId sessionId call_id output).1
        sessionId
      = some ⟨some p,
          sd.chatHistory ++ [.functionCallOutput call_id output], now⟩ := by
  rw [handleFunctionResult_found store now freshId sessionId call_id output sd hfound]
  simp only [hprev]
  have hlook : lookupS (setS (setS store sessionId
      (⟨some p, sd.chatHistory ++ [.functionCallOutput call_id output], now⟩ : SessionData))
      sessionId
      (⟨some p, sd.chatHistory ++ [.functionCallOutput call_id output], now⟩ : SessionData))
      sessionId
      = some ⟨some p, sd.chatHistory ++ [.functionCallOutput call_id output], now⟩ :=
    lookupS_setS_self _ _ _
  have hrev : (sd.chatHistory ++
      [HistoryMessage.functionCallOutput call_id output]).reverse
      = HistoryMessage.functionCallOutput call_id output :: sd.chatHistory.reverse := by
    simp
  cases hcase : sd.chatHistory.reverse with
  | nil =>
      simp only [hprev, hrev, hcase]
      exact ⟨by trivial, by simpa [hprev] using hlook⟩
  | cons y ys =>
      have hy : sd.chatHistory.getLast? = some y :=
        getLast?_of_reverse_cons _ _ _ hcase
      have hnone : apiAssistantFor y call_id = none :=
        apiAssistantFor_eq_none y call_id (hnomatch y hy)
      simp only [hprev, hrev, hcase, hnone]
      exact ⟨by trivial, by simpa [hprev] using hlook⟩

/-- Witness for the amended C1 at a concrete desynced input. -/
theorem fnresult_desync_error_and_orphan_witness :
    (handleFunctionResult
        [("s2", ⟨some "resp1",
           [HistoryMessage.chat Role.assistant "hello" none], 0⟩)]
        7 "f1" "s2" "nope" "out").2 = FnResultOutcome.internalError ∧
    lookupS (handleFunctionResult
        [("s2", ⟨some "resp1",
           [HistoryMessage.chat Role.assistant "hello" none], 0⟩)]
        7 "f1" "s2" "nope" "out").1 "s2"
      = some ⟨some "resp1",
          [HistoryMessage.chat Role.assistant "hello" none,
           HistoryMessage.functionCallOutput "nope" "out"], 7⟩ :=
  fnresult_desync_error_and_orphan
    [("s2", ⟨some "resp1", [HistoryMessage.chat Role.assistant "hello" none], 0⟩)]
    7 "f1" "s2" "nope" "out"
    ⟨some "resp1", [HistoryMessage.chat Role.assistant "hello" none], 0⟩
    "resp1" (by decide) (by decide) (by decide)

-- Claim C3

/-- C3 (counterexample to the claim as stated): completing with empty final
text while an assistant tool-call request is recorded does NOT leave the
history without a new entry — `updateSessionData` pushes the found assistant
message again, so the history grows from two entries to three (a duplicate of
the tool-call request), while the continuation token is updated. -/
theorem empty_completion_appends_duplicate_concrete :
    chatOnComplete
        [("s1", ⟨some "r1",
           [HistoryMessage.chat Role.user "hi" none,
            HistoryMessage.chat Role.assistant ""
              (some [⟨"c1", "detectAllNodes", ""⟩])], 0⟩)]
        5 "s1" (some "") "r2"
      = [("s1", ⟨some "r2",
           [HistoryMessage.chat Role.user "hi" none,
            HistoryMessage.chat Role.assistant ""
              (some [⟨"c1", "detectAllNodes", ""⟩]),
            HistoryMessage.chat Role.assistant ""
              (some [⟨"c1", "detectAllNodes", ""⟩])], 5⟩)] ∧
    ([HistoryMessage.chat Role.user "hi" none,
      HistoryMessage.chat Role.assistant ""
        (some [⟨"c1", "detectAllNodes", ""⟩]),
      HistoryMessage.chat Role.assistant ""
        (some [⟨"c1", "detectAllNodes", ""⟩])].length = 3 ∧
     [HistoryMessage.chat Role.user "hi" none,
      HistoryMessage.chat Role.assistant ""
        (some [⟨"c1", "detectAllNodes", ""⟩])].length = 2) := by
  refine ⟨by decide, by decide, by decide⟩

/-- C3 (amended): on completion with empty or whitespace-only final text
while an assistant tool-call request is recorded, the handler re-appends that
existing assistant message as a new last history entry (the history grows by
one, duplicating the tool-call request) and still updates the continuation
token to the new response id. -/
theorem empty_completion_reappends_toolcall_request (store : Store) (now : Nat)
    (sessionId responseId : String) (finalText : Option String)
    (sd : SessionData) (m : HistoryMessage)
    (hfound : lookupS store sessionId = some sd)
    (hEmpty : ∀ t, finalText = some t → jsTrim t = "")
    (hReq : ((sd.chatHistory.filter isBackendChatMessage).filter
        isAssistantWithToolCalls).getLast? = some m) :
    lookupS (chatOnComplete store now sessionId finalText responseId) sessionId
      = some ⟨some responseId, sd.chatHistory ++ [m], now⟩ := by
  cases finalText with
  | none =>
      simp only [chatOnComplete, hfound, hReq]
      rw [if_neg (by simp)]
      simp only [updateSessionData, hfound]
      exact lookupS_setS_self _ _ _
  | some t =>
      have ht : jsTrim t = "" := hEmpty t rfl
      simp only [chatOnComplete, hfound, hReq]
      rw [if_neg (by simp [ht])]
      simp only [updateSessionData, hfound]
      exact lookupS_setS_self _ _ _

/-- Witness for the amended C3 at a concrete session. -/
theorem empty_completion_reappends_toolcall_request_witness :
    lookupS (chatOnComplete
        [("s3", ⟨some "r1",
           [HistoryMessage.chat Role.assistant "x"
              (some [⟨"c9", "createStickyNote", ""⟩])], 0⟩)]
        9 "s3" none "r9") "s3"
      = some ⟨some "r9",
          [HistoryMessage.chat Role.assistant "x"
             (some [⟨"c9", "createStickyNote", ""⟩]),
           HistoryMessage.chat Role.assistant "x"
             (some [⟨"c9", "createStickyNote", ""⟩])], 9⟩ :=
  empty_completion_reappends_toolcall_request
    [("s3", ⟨some "r1",
       [HistoryMessage.chat Role.assistant "x"
          (some [⟨"c9", "createStickyNote", ""⟩])], 0⟩)]
    9 "s3" "r9" none
    ⟨some "r1",
     [HistoryMessage.chat Role.assistant "x"
        (some [⟨"c9", "createStickyNote", ""⟩])], 0⟩
    (HistoryMessage.chat Role.assistant "x"
       (some [⟨"c9", "createStickyNote", ""⟩]))
    (by decide) (by intro t ht; cases ht) (by decide)

-- Claim C4

/-- C4: on a `chat_message` for a live session, when the continuation token
is null the input sent to the generation client is the full stored history
including the just-appended `UserMessage`, with the high-priority system
instruction prepended as first element unless a developer-role instruction is
already first; when the continuation token is non-null the input is exactly
the single new `UserMessage`. -/
theorem chat_input_selection (store : Store) (now : Nat)
    (freshId sessionId content : String) (sd : SessionData)
    (hfound : lookupS store sessionId = some sd)
    (hlive : ¬ now - sd.lastAccessed > SESSION_TTL) :
    (sd.previousResponseId = none →
      (startsWithDeveloperInstruction
          (sd.chatHistory ++ [HistoryMessage.chat Role.user content none]) = false →
        (handleChatMessagePrepare store now freshId sessionId content).2
          = SYSTEM_INSTRUCTION ::
              (sd.chatHistory ++ [HistoryMessage.chat Role.user content none])) ∧
      (startsWithDeveloperInstruction
          (sd.chatHistory ++ [HistoryMessage.chat Role.user content none]) = true →
        (handleChatMessagePrepare store now freshId sessionId content).2
          = sd.chatHistory ++ [HistoryMessage.chat Role.user content none])) ∧
    (∀ p, sd.previousResponseId = some p →
      (handleChatMessagePrepare store now freshId sessionId content).2
        = [HistoryMessage.chat Role.user content none]) := by
  have hr : getOrCreateSession store now freshId (some sessionId)
      = ⟨sessionId, { sd with lastAccessed := now }, false,
         setS store sessionId { sd with lastAccessed := now }⟩ := by
    simp [getOrCreateSession, hfound, hlive]
  have hlook1 : lookupS (setS store sessionId { sd with lastAccessed := now })
      sessionId = some { sd with lastAccessed := now } :=
    lookupS_setS_self _ _ _
  have hstore1 : addMessageToHistory
      (setS store sessionId { sd with lastAccessed := now }) now sessionId
      (.chat .user content none)
      = setS (setS store sessionId { sd with lastAccessed := now }) sessionId
          ⟨sd.previousResponseId,
           sd.chatHistory ++ [HistoryMessage.chat Role.user content none], now⟩ := by
    simp [addMessageToHistory, hlook1]
  have hlook2 : lookupS
      (setS (setS store sessionId { sd with lastAccessed := now }) sessionId
        (⟨sd.previousResponseId,
          sd.chatHistory ++ [HistoryMessage.chat Role.user content none],
          now⟩ : SessionData)) sessionId
      = some ⟨sd.previousResponseId,
          sd.chatHistory ++ [HistoryMessage.chat Role.user content none], now⟩ :=
    lookupS_setS_self _ _ _
  have hmain : (handleChatMessagePrepare store now freshId sessionId content).2
      = (match sd.previousResponseId with
         | none => ensureSystemInstruction
             (sd.chatHistory ++ [HistoryMessage.chat Role.user content none])
         | some _ => [HistoryMessage.chat Role.user content none]) := by
    simp only [handleChatMessagePrepare, hr, hstore1, hlook2]
  refine ⟨?_, ?_⟩
  · intro hp
    constructor
    · intro hsw
      simp [hmain, hp, ensureSystemInstruction, hsw]
    · intro hsw
      simp [hmain, hp, ensureSystemInstruction, hsw]
  · intro p hp
    simp [hmain, hp]

/-- Witness for C4: a null-token session receives the instruction-prefixed
full history; a non-null-token session receives only the new user message. -/
theorem chat_input_selection_witness :
    (handleChatMessagePrepare
        [("s1", ⟨none, [HistoryMessage.chat Role.user "a" none], 0⟩)]
        5 "f1" "s1" "b").2
      = [SYSTEM_INSTRUCTION, HistoryMessage.chat Role.user "a" none,
         HistoryMessage.chat Role.user "b" none] ∧
    (handleChatMessagePrepare
        [("s2", ⟨some "r1", [HistoryMessage.chat Role.user "a" none], 0⟩)]
        5 "f1" "s2" "b").2
      = [HistoryMessage.chat Role.user "b" none] := by
  constructor
  · have h := (chat_input_selection
      [("s1", ⟨none, [HistoryMessage.chat Role.user "a" none], 0⟩)]
      5 "f1" "s1" "b" ⟨none, [HistoryMessage.chat Role.user "a" none], 0⟩
      (by decide) (by decide)).1 rfl
    simpa using h.1 (by decide)
  · exact (chat_input_selection
      [("s2", ⟨some "r1", [HistoryMessage.chat Role.user "a" none], 0⟩)]
      5 "f1" "s2" "b" ⟨some "r1", [HistoryMessage.chat Role.user "a" none], 0⟩
      (by decide) (by decide)).2 "r1" rfl

-- Connection Gateway (websocket.ts)

/-- The error codes of `sendError`. -/
inductive ErrorCode
  | BAD_REQUEST
  | SESSION_ERROR
  | AI_ERROR
  | INTERNAL_ERROR
  | UNKNOWN
deriving DecidableEq

/-- The parse/type-guard outcome for an inbound frame's JSON payload:
`JSON.parse` failure, a frame passing `isChatMessageRequest`, a frame passing
`isFunctionResultRequest`, or any other shape. -/
inductive ParsedMessage
  | invalidJson
  | chatMessage (message : String) (sessionId : Option String)
  | functionResult (sessionId call_id output : String)
  | unknownShape
deriving DecidableEq

/-- An inbound frame.  `byteLength` is the size of the raw buffer;
`stringLength` is `rawMessage.toString().length`, i.e. the number of UTF-16
code units of the decoded text.  For UTF-8 input `stringLength ≤ byteLength`,
with equality only for ASCII. -/
structure RawFrame where
  byteLength : Nat
  stringLength : Nat
  parsed : ParsedMessage
deriving DecidableEq

/-- Per-connection state relevant to routing: the associated session id. -/
structure ClientConn where
  sessionId : Option String
deriving DecidableEq

/-- The decisive reply of one `client.on("message")` dispatch: a structured
error, or the frame being routed to `handleChatMessage` /
`handleFunctionResult` (whose own effects are modelled separately above). -/
inductive GatewayReply
  | errorReply (code : ErrorCode)
  | routedChat (sessionId : String)
  | routedFunctionResult (sessionId call_id : String)
deriving DecidableEq

/-- Result of one message dispatch.  `terminatesConnection` records whether
the handler closed the connection; the message handler never does (errors are
replied, the socket stays open). -/
structure GatewayStep where
  client : ClientConn
  store : Store
  reply : GatewayReply
  terminatesConnection : Bool
deriving DecidableEq

/-- The body of `client.on("message")`: reject frames whose decoded string
exceeds 10,000 UTF-16 code units with `BAD_REQUEST` (note: the source checks
`messageString.length`, not the byte length); reject JSON parse errors with
`BAD_REQUEST`; on a chat message, associate a session (creating one if the
client has none) and route to `handleChatMessage`; on a function result,
validate the session via `isValidSession` (replying `SESSION_ERROR` when
invalid) and route to `handleFunctionResult`; reject unknown shapes with
`BAD_REQUEST`.  No branch terminates the connection. -/
def gatewayOnMessage (store : Store) (now : Nat) (freshId : String)
    (client : ClientConn) (frame : RawFrame) : GatewayStep :=
  if frame.stringLength > 10000 then
    ⟨client, store, .errorReply .BAD_REQUEST, false⟩
  else
    match frame.parsed with
    | .invalidJson => ⟨client, store, .errorReply .BAD_REQUEST, false⟩
    | .chatMessage _ requestedSessionId =>
        match client.sessionId with
        | none =>
            let r := getOrCreateSession store now freshId requestedSessionId
            ⟨⟨some r.sessionId⟩, r.store, .routedChat r.sessionId, false⟩
        | some sid => ⟨client, store, .routedChat sid, false⟩
    | .functionResult sessionId call_id _ =>
        if isValidSession store now sessionId then
          ⟨⟨some sessionId⟩, store, .routedFunctionResult sessionId call_id, false⟩
        else
          ⟨client, store, .errorReply .SESSION_ERROR, false⟩
    | .unknownShape => ⟨client, store, .errorReply .BAD_REQUEST, false⟩

-- Claim C7

/-- C7 (counterexample to the claim as stated): the limit is checked on the
decoded string length, not the byte length.  A frame of 10,002 bytes whose
payload is 3,334 three-byte UTF-8 characters decodes to 3,334 UTF-16 code
units, so it is routed to the chat handler instead of being rejected with
`BAD_REQUEST`, although it exceeds 10,000 bytes. -/
theorem oversized_bytes_not_rejected_concrete :
    (10002 > 10000) ∧
    (gatewayOnMessage [] 0 "fresh" ⟨none⟩
        ⟨10002, 3334, .chatMessage "你好" none⟩).reply
      = GatewayReply.routedChat "fresh" ∧
    (gatewayOnMessage [] 0 "fresh" ⟨none⟩
        ⟨10002, 3334, .chatMessage "你好" none⟩).reply
      ≠ GatewayReply.errorReply ErrorCode.BAD_REQUEST := by
  refine ⟨by decide, by decide, by decide⟩

/-- C7 (amended): every inbound frame whose decoded string exceeds 10,000
UTF-16 code units (which covers every frame of more than 10,000 bytes of
ASCII) is rejected with a structured `BAD_REQUEST` error without being routed
to any handler and without touching client or store state, and the connection
stays open: any subsequent frame that parses as a valid, small-enough
`chat_message` on the same connection is routed to the chat handler. -/
theorem oversized_frame_rejected_by_charlength (store : Store) (now : Nat)
    (freshId : String) (client : ClientConn) (frame : RawFrame)
    (hbig : frame.stringLength > 10000) :
    gatewayOnMessage store now freshId client frame
      = ⟨client, store, .errorReply .BAD_REQUEST, false⟩ ∧
    ∀ (now2 : Nat) (freshId2 message : String)
      (requestedSessionId : Option String) (frame2 : RawFrame),
      frame2.stringLength ≤ 10000 →
      frame2.parsed = .chatMessage message requestedSessionId →
      ∃ sid,
        (gatewayOnMessage (gatewayOnMessage store now freshId client frame).store
            now2 freshId2
            (gatewayOnMessage store now freshId client frame).client
            frame2).reply = .routedChat sid := by
  have h1 : gatewayOnMessage store now freshId client frame
      = ⟨client, store, .errorReply .BAD_REQUEST, false⟩ := by
    simp [gatewayOnMessage, hbig]
  refine ⟨h1, ?_⟩
  intro now2 freshId2 message requestedSessionId frame2 hsmall hparsed
  rw [h1]
  simp only [gatewayOnMessage, if_neg (by omega : ¬ frame2.stringLength > 10000),
    hparsed]
  cases hc : client.sessionId with
  | none =>
      exact ⟨(getOrCreateSession store now2 freshId2 requestedSessionId).sessionId,
        by simp⟩
  | some sid => exact ⟨sid, by simp⟩

/-- Witness for the amended C7 at a concrete oversized frame followed by a
small valid chat message. -/
theorem oversized_frame_rejected_by_charlength_witness :
    gatewayOnMessage [] 0 "f1" ⟨none⟩ ⟨20000, 20000, .unknownShape⟩
      = ⟨⟨none⟩, [], .errorReply .BAD_REQUEST, false⟩ ∧
    ∃ sid,
      (gatewayOnMessage
          (gatewayOnMessage [] 0 "f1" ⟨none⟩ ⟨20000, 20000, .unknownShape⟩).store
          1 "f2"
          (gatewayOnMessage [] 0 "f1" ⟨none⟩ ⟨20000, 20000, .unknownShape⟩).client
          ⟨5, 5, .chatMessage "hi" none⟩).reply = GatewayReply.routedChat sid := by
  have h := oversized_frame_rejected_by_charlength [] 0 "f1" ⟨none⟩
    ⟨20000, 20000, .unknownShape⟩ (by decide)
  exact ⟨h.1, h.2 1 "f2" "hi" none ⟨5, 5, .chatMessage "hi" none⟩ (by decide) rfl⟩

-- Claim C8

/-- The origin allow-list of `wss.on("connection")`. -/
def allowedOrigins : List String :=
  ["https://www.figma.com", "https://figma.com", "https://www.figjam.com",
   "https://figjam.com", "http://localhost:3000", "null"]

/-- `(origin && allowedOrigins.includes(origin)) ||
(!origin && process.env.NODE_ENV === "development")`.  An absent (or falsy)
`Origin` header is modelled as `none`. -/
def isOriginAllowed (origin : Option String) (isDevelopment : Bool) : Bool :=
  (match origin with
   | some o => allowedOrigins.contains o
   | none => false) ||
  ((match origin with
    | some _ => false
    | none => true) && isDevelopment)

/-- Outcome of the connection-accept handler. -/
inductive ConnectionDecision
  | accepted
  | terminated
deriving DecidableEq

/-- The origin gate of `wss.on("connection")`: a disallowed origin is
terminated before any message listener is registered, so no message of that
connection is ever processed. -/
def acceptConnection (origin : Option String) (isDevelopment : Bool) :
    ConnectionDecision :=
  if isOriginAllowed origin isDevelopment then .accepted else .terminated

/-- C8: outside development mode a connection is accepted exactly when its
declared origin is present and on the allow-list (everything else is
terminated before any message is processed), and any acceptance whose origin
is not on the allow-list can only happen in development mode. -/
theorem origin_allowlist_enforced (origin : Option String) (isDevelopment : Bool) :
    (isDevelopment = false →
      (acceptConnection origin isDevelopment = .accepted ↔
        ∃ o, origin = some o ∧ allowedOrigins.contains o = true)) ∧
    (acceptConnection origin isDevelopment = .accepted →
      (∃ o, origin = some o ∧ allowedOrigins.contains o = true) ∨
        isDevelopment = true) := by
  cases origin with
  | none =>
      cases isDevelopment <;>
        simp [acceptConnection, isOriginAllowed]
  | some o =>
      by_cases hc : allowedOrigins.contains o = true <;>
        cases isDevelopment <;>
          simp [acceptConnection, isOriginAllowed, hc]

/-- Witness for C8: a production-mode connection from an allow-listed origin
is accepted. -/
theorem origin_allowlist_enforced_witness :
    acceptConnection (some "https://www.figma.com") false
      = ConnectionDecision.accepted :=
  ((origin_allowlist_enforced (some "https://www.figma.com") false).1 rfl).mpr
    ⟨"https://www.figma.com", rfl, by decide⟩

-- Heartbeat (setupHeartbeat in websocket.ts)

/-- The active connection map `clients`, restricted to the heartbeat-relevant
state: connection id paired with its `isAlive` flag (connections are assumed
OPEN; a non-open connection is likewise deleted by the tick). -/
abbrev ClientMap := List (String × Bool)

/-- `clients.get(id)?.isAlive`. -/
def lookupClient : ClientMap → String → Option Bool
  | [], _ => none
  | (clientId, isAlive) :: rest, id =>
      if clientId = id then some isAlive else lookupClient rest id

/-- One 30-second heartbeat tick: a client whose `isAlive` flag is false is
terminated and deleted from the map; an alive client has its flag cleared and
is pinged (awaiting a pong to set it back). -/
def heartbeatTick : ClientMap → ClientMap
  | [] => []
  | (clientId, isAlive) :: rest =>
      if isAlive then (clientId, false) :: heartbeatTick rest
      else heartbeatTick rest

/-- The `client.on("pong")` listener: sets the client's `isAlive` flag. -/
def receivePong : ClientMap → String → ClientMap
  | [], _ => []
  | (clientId, isAlive) :: rest, id =>
      if clientId = id then (clientId, true) :: receivePong rest id
      else (clientId, isAlive) :: receivePong rest id

theorem lookupClient_tick_of_true (m : ClientMap) (id : String)
    (h : lookupClient m id = some true) :
    lookupClient (heartbeatTick m) id = some false := by
  induction m with
  | nil => simp [lookupClient] at h
  | cons hd tl ih =>
      obtain ⟨cid, alive⟩ := hd
      by_cases hc : cid = id
      · subst hc
        simp [lookupClient] at h
        simp [heartbeatTick, h, lookupClient]
      · simp [lookupClient, hc] at h
        cases alive <;> simp [heartbeatTick, lookupClient, hc, ih h]

theorem lookupClient_none_of_not_mem (m : ClientMap) (id : String)
    (h : id ∉ m.map Prod.fst) : lookupClient m id = none := by
  induction m with
  | nil => simp [lookupClient]
  | cons hd tl ih =>
      obtain ⟨cid, alive⟩ := hd
      have h1 : ¬ cid = id := by
        intro hcon
        exact h (by simp [hcon])
      have h2 : id ∉ tl.map Prod.fst := by
        intro hcon
        exact h (by simp [hcon])
      simp [lookupClient, h1, ih h2]

theorem tick_keys_sublist (m : ClientMap) :
    ((heartbeatTick m).map Prod.fst).Sublist (m.map Prod.fst) := by
  induction m with
  | nil => simp [heartbeatTick]
  | cons hd tl ih =>
      obtain ⟨cid, alive⟩ := hd
      cases alive with
      | true => simpa [heartbeatTick] using ih.cons₂ cid
      | false => simpa [heartbeatTick] using ih.cons cid

theorem lookupClient_tick_of_none (m : ClientMap) (id : String)
    (h : lookupClient m id = none) :
    lookupClient (heartbeatTick m) id = none := by
  induction m with
  | nil => simp [heartbeatTick, lookupClient]
  | cons hd tl ih =>
      obtain ⟨cid, alive⟩ := hd
      by_cases hc : cid = id
      · subst hc; simp [lookupClient] at h
      · simp [lookupClient, hc] at h
        cases alive <;> simp [heartbeatTick, lookupClient, hc, ih h]

theorem lookupClient_tick_of_false (m : ClientMap) (id : String)
    (h : lookupClient m id = some false)
    (hnodup : (m.map Prod.fst).Nodup) :
    lookupClient (heartbeatTick m) id = none := by
  induction m with
  | nil => simp [lookupClient] at h
  | cons hd tl ih =>
      obtain ⟨cid, alive⟩ := hd
      rw [List.map_cons, List.nodup_cons] at hnodup
      by_cases hc : cid = id
      · subst hc
        simp [lookupClient] at h
        subst h
        show lookupClient (heartbeatTick tl) cid = none
        exact lookupClient_tick_of_none tl cid
          (lookupClient_none_of_not_mem tl cid hnodup.1)
      · simp [lookupClient, hc] at h
        cases alive <;> simp [heartbeatTick, lookupClient, hc, ih h hnodup.2]

theorem lookupClient_pong_of_some (m : ClientMap) (id : String) (b : Bool)
    (h : lookupClient m id = some b) :
    lookupClient (receivePong m id) id = some true := by
  induction m with
  | nil => simp [lookupClient] at h
  | cons hd tl ih =>
      obtain ⟨cid, alive⟩ := hd
      by_cases hc : cid = id
      · subst hc; simp [receivePong, lookupClient]
      · simp [lookupClient, hc] at h
        simp [receivePong, lookupClient, hc, ih h]

-- Claim C9

/-- C9: a connection alive at its last acknowledgment but never returning a
pong is still present (flag cleared) after one heartbeat tick, and is
terminated and removed from the connection map at the second tick; a
connection that acknowledges each probe (a pong arrives after every tick) is
never removed by the heartbeat. -/
theorem heartbeat_two_ticks_terminates (clients : ClientMap) (id : String)
    (halive : lookupClient clients id = some true)
    (hnodup : (clients.map Prod.fst).Nodup) :
    lookupClient (heartbeatTick clients) id = some false ∧
    lookupClient (heartbeatTick (heartbeatTick clients)) id = none ∧
    ∀ n, lookupClient
        (Nat.iterate (fun m => receivePong (heartbeatTick m) id) n clients) id
      = some true := by
  have h1 : lookupClient (heartbeatTick clients) id = some false :=
    lookupClient_tick_of_true clients id halive
  have hnodup1 : ((heartbeatTick clients).map Prod.fst).Nodup :=
    (tick_keys_sublist clients).nodup hnodup
  refine ⟨h1, lookupClient_tick_of_false _ id h1 hnodup1, ?_⟩
  intro n
  induction n with
  | zero => simpa using halive
  | succ k ih =>
      rw [Function.iterate_succ_apply']
      exact lookupClient_pong_of_some _ id false
        (lookupClient_tick_of_true _ id ih)

/-- Witness for C9 at a concrete two-connection map. -/
theorem heartbeat_two_ticks_terminates_witness :
    lookupClient (heartbeatTick (heartbeatTick [("a", true), ("b", true)])) "a"
      = none :=
  (heartbeat_two_ticks_terminates [("a", true), ("b", true)] "a"
    (by decide) (by decide)).2.1

-- Streaming Generation Client (generateChatResponseStream)

/-- `DetectedFunctionCall`. -/
structure DetectedFunctionCall where
  id : String
  call_id : String
  name : String
  arguments : String
deriving DecidableEq

/-- `Response["status"]` values distinguished by the completion handler
(`inProgress` stands for any other status value, treated as complete). -/
inductive RespStatus
  | completed
  | incomplete
  | failed
  | inProgress
deriving DecidableEq

/-- The upstream stream events consumed by the `for await` loop.  The
`responseCompleted` status is optional: `event.response?.status` may be
undefined.  Events of kinds the switch ignores are `otherEvent`. -/
inductive StreamEvent
  | responseCreated (responseId : String)
  | outputItemAddedFunctionCall (itemId call_id name : String)
  | functionCallArgumentsDelta (delta : String)
  | functionCallArgumentsDone (arguments : Option String)
  | outputTextDelta (delta : String)
  | refusalDelta (delta : String)
  | responseCompleted (status : Option RespStatus) (errorMessage : Option String)
  | errorEvent (message : Option String)
  | otherEvent
deriving DecidableEq

/-- The local mutable state of `generateChatResponseStream`'s event loop. -/
structure StreamState where
  fullTextResponse : String
  responseId : String
  currentFunctionCall : Option DetectedFunctionCall
  functionArgumentsBuffer : String
  finalStatus : Option RespStatus
deriving DecidableEq

/-- The four caller-supplied callbacks, recorded as an emission trace. -/
inductive CallbackEvent
  | onChunk (chunk : String)
  | onFunctionCall (functionCall : DetectedFunctionCall)
  | onComplete (finalText : Option String) (responseId : String)
  | onError (message : String)
deriving DecidableEq

def initialStreamState : StreamState := ⟨"", "", none, "", none⟩

/-- One iteration of the `for await` loop: the pre-switch capture of the
response id followed by the switch on the event type.  Returns the updated
state, the callbacks invoked, and whether the loop `return`ed early (only the
`error` event does).  The `|| temp_fc_${Date.now()}` fallback for a missing
function-call item id is not modelled (item ids are opaque here). -/
def processEvent (s : StreamState) (e : StreamEvent) :
    StreamState × List CallbackEvent × Bool :=
  let s :=
    match e with
    | .responseCreated rid =>
        if s.responseId = "" ∧ rid ≠ "" then { s with responseId := rid } else s
    | _ => s
  match e with
  | .outputItemAddedFunctionCall itemId call_id name =>
      ({ s with functionArgumentsBuffer := "",
                currentFunctionCall := some ⟨itemId, call_id, name, ""⟩ },
       [], false)
  | .functionCallArgumentsDelta delta =>
      (match s.currentFunctionCall with
       | some _ =>
           if delta ≠ "" then
             { s with functionArgumentsBuffer :=
                 s.functionArgumentsBuffer ++ delta }
           else s
       | none => s,
       [], false)
  | .functionCallArgumentsDone arguments =>
      match s.currentFunctionCall, arguments with
      | some fc, some args =>
          ({ s with currentFunctionCall := none, functionArgumentsBuffer := "" },
           [.onFunctionCall { fc with arguments := args }], false)
      | _, _ => (s, [], false)
  | .outputTextDelta delta =>
      if delta ≠ "" then
        ({ s with fullTextResponse := s.fullTextResponse ++ delta },
         [.onChunk delta], false)
      else (s, [], false)
  | .refusalDelta delta =>
      if delta ≠ "" then
        ({ s with fullTextResponse :=
             s.fullTextResponse ++ ("[Refusal]: " ++ delta) },
         [.onChunk ("[Refusal]: " ++ delta)], false)
      else (s, [], false)
  | .responseCompleted status errorMessage =>
      let s := { s with finalStatus := status }
      match status with
      | some .failed =>
          (s, [.onError ("OpenAI stream failed: "
                 ++ errorMessage.getD "Unknown API error")], false)
      | _ =>
          -- `completed`, `incomplete`, any unexpected status, and a missing
          -- status all call onComplete(fullTextResponse || null, responseId)
          (s, [.onComplete
                 (if s.fullTextResponse = "" then none else some s.fullTextResponse)
                 s.responseId], false)
  | .errorEvent message =>
      (s, [.onError ("Stream error: " ++ message.getD "Unknown stream error")],
       true)
  | .responseCreated _ => (s, [], false)
  | .otherEvent => (s, [], false)

/-- The `for await` loop over the event list, accumulating callbacks and
stopping at an early `return`. -/
def runEvents : StreamState → List StreamEvent → StreamState × List CallbackEvent × Bool
  | s, [] => (s, [], false)
  | s, e :: rest =>
      match processEvent s e with
      | (s1, cbs, true) => (s1, cbs, true)
      | (s1, cbs, false) =>
          match runEvents s1 rest with
          | (s2, cbs2, r2) => (s2, cbs ++ cbs2, r2)

/-- The epilogue of `generateChatResponseStream`: nothing more after an early
return; a thrown exception is caught by the surrounding try/catch and
surfaced through `onError`; otherwise, if the loop finished without any
completion event (`finalStatus === undefined`), a completion is synthesized
from the buffered text. -/
def finishStream (r : StreamState × List CallbackEvent × Bool)
    (thrownError : Option String) : List CallbackEvent :=
  match r with
  | (s, cbs, earlyReturn) =>
      if earlyReturn then cbs
      else
        match thrownError with
        | some msg => cbs ++ [.onError msg]
        | none =>
            match s.finalStatus with
            | none =>
                cbs ++ [.onComplete
                  (if s.fullTextResponse = "" then none else some s.fullTextResponse)
                  s.responseId]
            | some _ => cbs

/-- `generateChatResponseStream`, abstracted over the upstream stream: the
event list is the sequence of events the `for await` loop receives, and
`thrownError = some msg` models an exception (transport failure, malformed
frame, failed initial call) raised after those events, caught by the
function's try/catch.  The result is the trace of callback invocations. -/
def generateChatResponseStream (events : List StreamEvent)
    (thrownError : Option String) : List CallbackEvent :=
  finishStream (runEvents initialStreamState events) thrownError

/-- A terminal callback: `onComplete` or `onError`. -/
def isTerminalCallback : CallbackEvent → Bool
  | .onComplete _ _ => true
  | .onError _ => true
  | _ => false

/-- A terminal upstream event: `response.completed` or `error`. -/
def isTerminalEvent : StreamEvent → Bool
  | .responseCompleted _ _ => true
  | .errorEvent _ => true
  | _ => false

/-- A `response.completed` event carrying an actual status (a completion
event with `event.response?.status` undefined triggers both the switch's
fallback completion and the post-loop synthesized completion). -/
def completionHasStatus : StreamEvent → Bool
  | .responseCompleted none _ => false
  | _ => true

theorem processEvent_nonterminal (s : StreamState) (e : StreamEvent)
    (he : isTerminalEvent e = false) :
    ((processEvent s e).2.1).countP isTerminalCallback = 0 ∧
    (processEvent s e).1.finalStatus = s.finalStatus ∧
    (processEvent s e).2.2 = false := by
  cases e with
  | responseCreated rid =>
      by_cases hc : s.responseId = "" ∧ rid ≠ "" <;>
        simp [processEvent, hc, List.countP_nil, List.countP_cons, isTerminalCallback]
  | outputItemAddedFunctionCall a b c => simp [processEvent, List.countP_nil, List.countP_cons, isTerminalCallback]
  | functionCallArgumentsDelta d =>
      cases hf : s.currentFunctionCall <;> by_cases hd : d = "" <;>
        simp [processEvent, hf, hd, List.countP_nil, List.countP_cons, isTerminalCallback]
  | functionCallArgumentsDone args =>
      cases hf : s.currentFunctionCall <;> cases args <;>
        simp [processEvent, hf, List.countP_nil, List.countP_cons, isTerminalCallback]
  | outputTextDelta d =>
      by_cases hd : d = "" <;>
        simp [processEvent, hd, List.countP_nil, List.countP_cons, isTerminalCallback]
  | refusalDelta d =>
      by_cases hd : d = "" <;>
        simp [processEvent, hd, List.countP_nil, List.countP_cons, isTerminalCallback]
  | responseCompleted status err => simp [isTerminalEvent] at he
  | errorEvent msg => simp [isTerminalEvent] at he
  | otherEvent => simp [processEvent, List.countP_nil, List.countP_cons, isTerminalCallback]

theorem runEvents_nonterminal (events : List StreamEvent) :
    ∀ (s : StreamState), events.countP isTerminalEvent = 0 →
      ((runEvents s events).2.1).countP isTerminalCallback = 0 ∧
      (runEvents s events).1.finalStatus = s.finalStatus ∧
      (runEvents s events).2.2 = false := by
  induction events with
  | nil => intro s _; simp [runEvents, List.countP_nil, List.countP_cons, isTerminalCallback]
  | cons e rest ih =>
      intro s h
      have he : isTerminalEvent e = false := by
        by_contra hcon
        have : isTerminalEvent e = true := by simpa using hcon
        simp [List.countP_cons, this] at h
      have hrest : rest.countP isTerminalEvent = 0 := by
        simpa [List.countP_cons, he] using h
      obtain ⟨hcbs, hfs, hret⟩ := processEvent_nonterminal s e he
      rcases hpe : processEvent s e with ⟨s1, cbs, ret⟩
      rw [hpe] at hcbs hfs hret
      simp only at hcbs hfs hret
      subst hret
      obtain ⟨hcbs2, hfs2, hret2⟩ := ih s1 hrest
      rcases hr : runEvents s1 rest with ⟨s2, cbs2, r2⟩
      rw [hr] at hcbs2 hfs2 hret2
      simp only at hcbs2 hfs2 hret2
      subst hret2
      have hrun : runEvents s (e :: rest) = (s2, cbs ++ cbs2, false) := by
        simp [runEvents, hpe, hr]
      rw [hrun]
      simp only [List.countP_append]
      exact ⟨by omega, hfs2.trans hfs, trivial⟩

theorem processEvent_completed_with_status (s : StreamState) (st : RespStatus)
    (err : Option String) :
    ((processEvent s (.responseCompleted (some st) err)).2.1).countP
        isTerminalCallback = 1 ∧
    (processEvent s (.responseCompleted (some st) err)).1.finalStatus
      = some st ∧
    (processEvent s (.responseCompleted (some st) err)).2.2 = false := by
  cases st <;> simp [processEvent, List.countP_nil, List.countP_cons, isTerminalCallback]

theorem finishStream_append (s : StreamState) (cbs1 cbs2 : List CallbackEvent)
    (r : Bool) (te : Option String) :
    finishStream (s, cbs1 ++ cbs2, r) te = cbs1 ++ finishStream (s, cbs2, r) te := by
  cases r with
  | true => simp [finishStream]
  | false =>
      cases te with
      | some msg => simp [finishStream]
      | none =>
          cases hfs : s.finalStatus <;> simp [finishStream, hfs]

theorem stream_count_aux (te : Option String) :
    ∀ (events : List StreamEvent) (s : StreamState), s.finalStatus = none →
      (events.countP isTerminalEvent = 0 ∨
       (events.countP isTerminalEvent = 1 ∧ te = none ∧
        events.all completionHasStatus = true)) →
      ((finishStream (runEvents s events) te).countP isTerminalCallback) = 1 := by
  intro events
  induction events with
  | nil =>
      intro s hs h
      cases te <;> simp [runEvents, finishStream, hs, List.countP_nil, List.countP_cons,
        isTerminalCallback]
  | cons e rest ih =>
      intro s hs h
      by_cases hte : isTerminalEvent e = true
      · -- the head event is terminal: the zero-count disjunct is impossible
        have hcount1 : (e :: rest).countP isTerminalEvent
            = rest.countP isTerminalEvent + 1 := by
          simp [List.countP_cons, hte]
        rcases h with h0 | ⟨h1, h2, h3⟩
        · exact absurd h0 (by omega)
        · have hrest : rest.countP isTerminalEvent = 0 := by omega
          subst h2
          cases e with
          | errorEvent msg =>
              have hrun : runEvents s (.errorEvent msg :: rest)
                  = (s, [.onError ("Stream error: "
                      ++ msg.getD "Unknown stream error")], true) := by
                simp [runEvents, processEvent]
              rw [hrun]
              simp [finishStream, List.countP_nil, List.countP_cons, isTerminalCallback]
          | responseCompleted status err =>
              have hstatus : ∃ st, status = some st := by
                cases status with
                | none => simp [List.all_cons, completionHasStatus] at h3
                | some st => exact ⟨st, rfl⟩
              obtain ⟨st, rfl⟩ := hstatus
              obtain ⟨hcbs, hfs, hret⟩ :=
                processEvent_completed_with_status s st err
              rcases hpe : processEvent s (.responseCompleted (some st) err)
                with ⟨s1, cbs, ret⟩
              rw [hpe] at hcbs hfs hret
              simp only at hcbs hfs hret
              subst hret
              obtain ⟨hcbs2, hfs2, hret2⟩ := runEvents_nonterminal rest s1 hrest
              rcases hr : runEvents s1 rest with ⟨s2, cbs2, r2⟩
              rw [hr] at hcbs2 hfs2 hret2
              simp only at hcbs2 hfs2 hret2
              subst hret2
              have hrun : runEvents s (.responseCompleted (some st) err :: rest)
                  = (s2, cbs ++ cbs2, false) := by
                simp [runEvents, hpe, hr]
              rw [hrun, finishStream_append]
              have hfinal : s2.finalStatus = some st := hfs2.trans hfs
              simp [finishStream, hfinal, List.countP_append, hcbs, hcbs2]
          | responseCreated rid => simp [isTerminalEvent] at hte
          | outputItemAddedFunctionCall a b c => simp [isTerminalEvent] at hte
          | functionCallArgumentsDelta d => simp [isTerminalEvent] at hte
          | functionCallArgumentsDone args => simp [isTerminalEvent] at hte
          | outputTextDelta d => simp [isTerminalEvent] at hte
          | refusalDelta d => simp [isTerminalEvent] at hte
          | otherEvent => simp [isTerminalEvent] at hte
      · have he : isTerminalEvent e = false := by simpa using hte
        obtain ⟨hcbs, hfs, hret⟩ := processEvent_nonterminal s e he
        rcases hpe : processEvent s e with ⟨s1, cbs, ret⟩
        rw [hpe] at hcbs hfs hret
        simp only at hcbs hfs hret
        subst hret
        rcases hr : runEvents s1 rest with ⟨s2, cbs2, r2⟩
        have hrun : runEvents s (e :: rest) = (s2, cbs ++ cbs2, r2) := by
          simp [runEvents, hpe, hr]
        have h' : rest.countP isTerminalEvent = 0 ∨
            (rest.countP isTerminalEvent = 1 ∧ te = none ∧
             rest.all completionHasStatus = true) := by
          rcases h with h0 | ⟨h1, h2, h3⟩
          · left
            simpa [List.countP_cons, he] using h0
          · right
            refine ⟨by simpa [List.countP_cons, he] using h1, h2, ?_⟩
            rw [List.all_cons, Bool.and_eq_true] at h3
            exact h3.2
        have hih := ih s1 (hfs.trans hs) h'
        rw [hr] at hih
        rw [hrun, finishStream_append]
        simp only [List.countP_append, hcbs]
        omega

-- Claim C2

/-- C2 (counterexample to the claim as stated): an upstream stream that
delivers two `response.completed` events makes the client invoke `onComplete`
twice — two terminal callbacks in one invocation, because the completion
branch neither returns nor guards against a second completion. -/
theorem stream_double_completion_two_terminals :
    (generateChatResponseStream
        [.responseCompleted (some .completed) none,
         .responseCompleted (some .completed) none] none).countP
      isTerminalCallback = 2 := by decide

/-- C2 (amended): the client invokes exactly one terminal callback
(`onComplete` or `onError`) whenever the upstream interaction contains at
most one terminal event — no `response.completed` or `error` event at all
(then a completion is synthesized from the buffered text, or the thrown
exception surfaces as a single `onError`), or exactly one such event, with a
present status when it is a completion, and no exception after it.  Streams
with a duplicated completion event, a completion event missing its status, or
an exception thrown after a completion event invoke terminal callbacks more
than once. -/
theorem stream_exactly_one_terminal (events : List StreamEvent)
    (thrownError : Option String)
    (h : events.countP isTerminalEvent = 0 ∨
         (events.countP isTerminalEvent = 1 ∧ thrownError = none ∧
          events.all completionHasStatus = true)) :
    (generateChatResponseStream events thrownError).countP
      isTerminalCallback = 1 :=
  stream_count_aux thrownError events initialStreamState rfl h

/-- Witness for the amended C2: a text delta followed by one completion
event yields exactly one terminal callback. -/
theorem stream_exactly_one_terminal_witness :
    (generateChatResponseStream
        [.outputTextDelta "a", .responseCompleted (some .completed) none]
        none).countP isTerminalCallback = 1 :=
  stream_exactly_one_terminal
    [.outputTextDelta "a", .responseCompleted (some .completed) none] none
    (Or.inr ⟨by decide, rfl, by decide⟩)
